import Mathlib

/-!
Verification of the RemoteApp (RAIL) channel layer of guacamole-server
(src/protocols/rdp/channels/rail.c) against its natural-language
specification.

The C file is shallowly embedded as follows:

* The FreeRDP send primitives (`rail->ClientHandshake`, `ClientInformation`,
  `ClientSystemParam`, `ClientExecute`) are external collaborators: they are
  modelled as an oracle record `RailSendOps` of functions from the record
  sent to the returned status (`UINT`, modelled as `Nat`, with
  `CHANNEL_RC_OK = 0` as in the channel API).
* The sequencer `guac_rdp_rail_complete_handshake` is embedded as a pure
  function that mirrors the C control flow statement by statement and
  additionally returns the trace of observable events it performed
  (mutex lock/unlock and each send, with the record value sent) and the
  session-context state at return, so that ordering, locking and frame
  properties can be stated.
* Bitwise ORs of distinct single-bit flag constants from the external
  FreeRDP headers (`HCF_*`, `SPI_MASK_SET_*`, `RAIL_EXEC_FLAG_*`) are
  modelled as finite sets of the named flags; the claims and the spec speak
  only of which named flags are present.
* `guac_client_log` and `guac_client_abort` are side effects on the owning
  client; they are modelled as an emitted list of `ClientAction`s.
-/

/-- The `UINT` status codes returned by the FreeRDP virtual-channel API. -/
abbrev UINT := Nat

/-- `CHANNEL_RC_OK` is zero in the virtual-channel API. -/
def CHANNEL_RC_OK : UINT := 0

/-- The fields of `guac_rdp_settings` read by this layer (rail.c reads
`width`, `height`, `remote_app`, `remote_app_dir`, `remote_app_args`). -/
structure guac_rdp_settings where
  width : Int
  height : Int
  remote_app : String
  remote_app_dir : String
  remote_app_args : String
deriving DecidableEq, Repr

/-- The session context (`guac_rdp_client`): the configuration read by this
layer.  The `message_lock` mutex has no persistent value of its own; its
acquire/release operations appear as events in the trace. -/
structure guac_rdp_client where
  settings : guac_rdp_settings
deriving DecidableEq, Repr

/-- `RAIL_HANDSHAKE_ORDER` (Handshake PDU payload). -/
structure RAIL_HANDSHAKE_ORDER where
  buildNumber : Nat
deriving DecidableEq, Repr

/-- `RAIL_CLIENT_STATUS_ORDER` (Client Information PDU payload). -/
structure RAIL_CLIENT_STATUS_ORDER where
  flags : Nat
deriving DecidableEq, Repr

/-- The named high-contrast flag constants of the external FreeRDP header
that rail.c combines with bitwise OR. -/
inductive HighContrastFlag where
  | HCF_AVAILABLE
  | HCF_CONFIRMHOTKEY
  | HCF_HOTKEYACTIVE
  | HCF_HOTKEYAVAILABLE
  | HCF_HOTKEYSOUND
  | HCF_INDICATOR
  | HCF_HIGHCONTRASTON
deriving DecidableEq, Repr

/-- `RAIL_UNICODE_STRING` (a string pointer and a length); rail.c sets the
high-contrast color scheme to the null string of length 0. -/
structure RAIL_UNICODE_STRING where
  string : Option String
  length : Nat
deriving DecidableEq, Repr

/-- The `highContrast` member of `RAIL_SYSPARAM_ORDER`. -/
structure RAIL_HIGH_CONTRAST where
  flags : Finset HighContrastFlag
  colorScheme : RAIL_UNICODE_STRING
deriving DecidableEq

/-- The work-area rectangle as assigned by rail.c (`left`, `top`, `right`,
`bottom`, assigned directly from the settings fields). -/
structure RAIL_RECTANGLE where
  left : Int
  top : Int
  right : Int
  bottom : Int
deriving DecidableEq, Repr

/-- The named system-parameter mask constants of the external FreeRDP
header that rail.c combines with bitwise OR. -/
inductive SPIMaskFlag where
  | SPI_MASK_SET_DRAG_FULL_WINDOWS
  | SPI_MASK_SET_HIGH_CONTRAST
  | SPI_MASK_SET_KEYBOARD_CUES
  | SPI_MASK_SET_KEYBOARD_PREF
  | SPI_MASK_SET_MOUSE_BUTTON_SWAP
  | SPI_MASK_SET_WORK_AREA
deriving DecidableEq, Repr

/-- `RAIL_SYSPARAM_ORDER` (System Parameters Update PDU payload), with the
fields rail.c initializes. -/
structure RAIL_SYSPARAM_ORDER where
  dragFullWindows : Bool
  highContrast : RAIL_HIGH_CONTRAST
  keyboardCues : Bool
  keyboardPref : Bool
  mouseButtonSwap : Bool
  workArea : RAIL_RECTANGLE
  params : Finset SPIMaskFlag
deriving DecidableEq

/-- The named execute-flag constants of the external FreeRDP header. -/
inductive RailExecFlag where
  | RAIL_EXEC_FLAG_EXPAND_WORKINGDIRECTORY
  | RAIL_EXEC_FLAG_TRANSLATE_FILES
  | RAIL_EXEC_FLAG_FILE
  | RAIL_EXEC_FLAG_EXPAND_ARGUMENTS
deriving DecidableEq, Repr

/-- `RAIL_EXEC_ORDER` (Client Execute PDU payload), with the fields rail.c
initializes. -/
structure RAIL_EXEC_ORDER where
  flags : Finset RailExecFlag
  RemoteApplicationProgram : String
  RemoteApplicationWorkingDir : String
  RemoteApplicationArguments : String
deriving DecidableEq

/-- The four FreeRDP send primitives of `RailClientContext` used by the
sequencer, each returning a status (an oracle for the external transport). -/
structure RailSendOps where
  ClientHandshake : RAIL_HANDSHAKE_ORDER → UINT
  ClientInformation : RAIL_CLIENT_STATUS_ORDER → UINT
  ClientSystemParam : RAIL_SYSPARAM_ORDER → UINT
  ClientExecute : RAIL_EXEC_ORDER → UINT

/-- An observable event of the sequencer: a `pthread_mutex_lock` or
`pthread_mutex_unlock` on the session context's `message_lock`, or one of
the four sends together with the record value passed to it. -/
inductive RailEvent where
  | lockAcquire
  | lockRelease
  | sendHandshake (order : RAIL_HANDSHAKE_ORDER)
  | sendClientStatus (order : RAIL_CLIENT_STATUS_ORDER)
  | sendSysparam (order : RAIL_SYSPARAM_ORDER)
  | sendExecute (order : RAIL_EXEC_ORDER)
deriving DecidableEq

/-- The outcome of one invocation of the sequencer: the event trace, the
returned status, and the session-context state at return (threaded
explicitly so frame properties are statable). -/
structure HandshakeResult where
  trace : List RailEvent
  status : UINT
  rdp_client : guac_rdp_client
deriving DecidableEq

/-- The `RAIL_HANDSHAKE_ORDER` built by rail.c: build number 7600. -/
def guac_rdp_handshake_order : RAIL_HANDSHAKE_ORDER :=
  { buildNumber := 7600 }

/-- The `RAIL_CLIENT_STATUS_ORDER` built by rail.c: `flags = 0x00`. -/
def guac_rdp_client_status_order : RAIL_CLIENT_STATUS_ORDER :=
  { flags := 0x00 }

/-- The `RAIL_SYSPARAM_ORDER` built by rail.c from the session context. -/
def guac_rdp_sysparam_order (rdp_client : guac_rdp_client) : RAIL_SYSPARAM_ORDER :=
  { dragFullWindows := false,

    highContrast := {
      flags :=
        { HighContrastFlag.HCF_AVAILABLE,
          HighContrastFlag.HCF_CONFIRMHOTKEY,
          HighContrastFlag.HCF_HOTKEYACTIVE,
          HighContrastFlag.HCF_HOTKEYAVAILABLE,
          HighContrastFlag.HCF_HOTKEYSOUND,
          HighContrastFlag.HCF_INDICATOR },
      colorScheme := { string := none, length := 0 } },

    keyboardCues := false,
    keyboardPref := false,
    mouseButtonSwap := false,

    workArea := {
      left := 0,
      top := 0,
      right := rdp_client.settings.width,
      bottom := rdp_client.settings.height },

    params :=
      { SPIMaskFlag.SPI_MASK_SET_DRAG_FULL_WINDOWS,
        SPIMaskFlag.SPI_MASK_SET_HIGH_CONTRAST,
        SPIMaskFlag.SPI_MASK_SET_KEYBOARD_CUES,
        SPIMaskFlag.SPI_MASK_SET_KEYBOARD_PREF,
        SPIMaskFlag.SPI_MASK_SET_MOUSE_BUTTON_SWAP,
        SPIMaskFlag.SPI_MASK_SET_WORK_AREA } }

/-- The `RAIL_EXEC_ORDER` built by rail.c from the session context. -/
def guac_rdp_exec_order (rdp_client : guac_rdp_client) : RAIL_EXEC_ORDER :=
  { flags := { RailExecFlag.RAIL_EXEC_FLAG_EXPAND_ARGUMENTS },
    RemoteApplicationProgram := rdp_client.settings.remote_app,
    RemoteApplicationWorkingDir := rdp_client.settings.remote_app_dir,
    RemoteApplicationArguments := rdp_client.settings.remote_app_args }

/-- `guac_rdp_rail_complete_handshake` (rail.c lines 72-169), mirroring the
C control flow: build each record, lock, send, unlock, and return the
status as soon as a send reports non-success. -/
def guac_rdp_rail_complete_handshake (rail : RailSendOps)
    (rdp_client : guac_rdp_client) : HandshakeResult :=
  let handshake := guac_rdp_handshake_order
  let status := rail.ClientHandshake handshake
  let trace := [RailEvent.lockAcquire, RailEvent.sendHandshake handshake,
    RailEvent.lockRelease]
  if status ≠ CHANNEL_RC_OK then
    { trace := trace, status := status, rdp_client := rdp_client }
  else
    let client_status := guac_rdp_client_status_order
    let status := rail.ClientInformation client_status
    let trace := trace ++ [RailEvent.lockAcquire,
      RailEvent.sendClientStatus client_status, RailEvent.lockRelease]
    if status ≠ CHANNEL_RC_OK then
      { trace := trace, status := status, rdp_client := rdp_client }
    else
      let sysparam := guac_rdp_sysparam_order rdp_client
      let status := rail.ClientSystemParam sysparam
      let trace := trace ++ [RailEvent.lockAcquire,
        RailEvent.sendSysparam sysparam, RailEvent.lockRelease]
      if status ≠ CHANNEL_RC_OK then
        { trace := trace, status := status, rdp_client := rdp_client }
      else
        let exec := guac_rdp_exec_order rdp_client
        let status := rail.ClientExecute exec
        let trace := trace ++ [RailEvent.lockAcquire,
          RailEvent.sendExecute exec, RailEvent.lockRelease]
        { trace := trace, status := status, rdp_client := rdp_client }

/-- `RAIL_EXEC_RESULT_ORDER` (Server Execute Result PDU payload), with the
fields relevant to rail.c's handler (only `execResult` is read). -/
structure RAIL_EXEC_RESULT_ORDER where
  execResult : Nat
  rawResult : Nat
deriving DecidableEq, Repr

/-- `RAIL_EXEC_S_OK`, the success execution result of the Server Execute
Result PDU (value 0 in the external protocol headers). -/
def RAIL_EXEC_S_OK : Nat := 0

/-- The log levels of the guacamole client API used by rail.c. -/
inductive GuacLogLevel where
  | GUAC_LOG_ERROR
  | GUAC_LOG_WARNING
  | GUAC_LOG_INFO
  | GUAC_LOG_DEBUG
  | GUAC_LOG_TRACE
deriving DecidableEq, Repr

/-- The guacamole protocol statuses referenced by this layer (a fragment of
guac_protocol_status; only `UPSTREAM_UNAVAILABLE` is used by rail.c). -/
inductive GuacStatus where
  | GUAC_PROTOCOL_STATUS_SUCCESS
  | GUAC_PROTOCOL_STATUS_SERVER_ERROR
  | GUAC_PROTOCOL_STATUS_UPSTREAM_TIMEOUT
  | GUAC_PROTOCOL_STATUS_UPSTREAM_ERROR
  | GUAC_PROTOCOL_STATUS_UPSTREAM_UNAVAILABLE
deriving DecidableEq, Repr

/-- A side effect on the owning `guac_client`: a `guac_client_log` call or a
`guac_client_abort` (session termination) call. -/
inductive ClientAction where
  | log (level : GuacLogLevel) (message : String)
  | abort (status : GuacStatus) (message : String)
deriving DecidableEq, Repr

/-- Whether an action is a session-abort call. -/
def ClientAction.isAbort : ClientAction → Bool
  | .abort _ _ => true
  | _ => false

/-- `guac_rdp_rail_execute_result` (rail.c lines 188-200): on a non-success
result code, log at debug level and abort the session with
`GUAC_PROTOCOL_STATUS_UPSTREAM_UNAVAILABLE`; always return
`CHANNEL_RC_OK`.  Returns the emitted client actions and the status. -/
def guac_rdp_rail_execute_result (execResult : RAIL_EXEC_RESULT_ORDER) :
    List ClientAction × UINT :=
  if execResult.execResult ≠ RAIL_EXEC_S_OK then
    ([ClientAction.log GuacLogLevel.GUAC_LOG_DEBUG
        "Failed to execute RAIL command on server: %d",
      ClientAction.abort GuacStatus.GUAC_PROTOCOL_STATUS_UPSTREAM_UNAVAILABLE
        "Failed to execute RAIL command."],
     CHANNEL_RC_OK)
  else
    ([], CHANNEL_RC_OK)

/-- `guac_rdp_rail_handshake` (rail.c lines 221-224): the plain Handshake
PDU callback, which ignores its payload and runs the sequencer. -/
def guac_rdp_rail_handshake (rail : RailSendOps) (rdp_client : guac_rdp_client)
    (_handshake : RAIL_HANDSHAKE_ORDER) : HandshakeResult :=
  guac_rdp_rail_complete_handshake rail rdp_client

/-- `RAIL_HANDSHAKE_EX_ORDER` (HandshakeEx PDU payload; not inspected by
this layer beyond its presence). -/
structure RAIL_HANDSHAKE_EX_ORDER where
  buildNumber : Nat
  railHandshakeFlags : Nat
deriving DecidableEq, Repr

/-- `guac_rdp_rail_handshake_ex` (rail.c lines 245-248): the HandshakeEx
PDU callback, which ignores its payload and runs the sequencer. -/
def guac_rdp_rail_handshake_ex (rail : RailSendOps) (rdp_client : guac_rdp_client)
    (_handshake_ex : RAIL_HANDSHAKE_EX_ORDER) : HandshakeResult :=
  guac_rdp_rail_complete_handshake rail rdp_client

/-- An opaque handle to the owning `guac_client` (the session handle stored
into the channel context's `custom` back-reference slot). -/
structure guac_client where
  handle : Nat
deriving DecidableEq, Repr

/-- `rdp_freerdp_context`: the rdpContext wrapper giving access to the
owning `guac_client`. -/
structure rdp_freerdp_context where
  client : guac_client
deriving DecidableEq, Repr

/-- Names of the callback implementations rail.c can install into the
channel context's callback slots. -/
inductive RailCallbackImpl where
  | cb_guac_rdp_rail_execute_result
  | cb_guac_rdp_rail_handshake
  | cb_guac_rdp_rail_handshake_ex
deriving DecidableEq, Repr

/-- The mutable slots of `RailClientContext` that
`guac_rdp_rail_channel_connected` populates: the `custom` back-reference
and the three server-event callback slots. -/
structure RailClientContextSlots where
  custom : Option guac_client
  ServerExecuteResult : Option RailCallbackImpl
  ServerHandshake : Option RailCallbackImpl
  ServerHandshakeEx : Option RailCallbackImpl
deriving DecidableEq, Repr

/-- `RAIL_SVC_CHANNEL_NAME`, the well-known static virtual channel name of
the RAIL channel in the external FreeRDP headers. -/
def RAIL_SVC_CHANNEL_NAME : String := "rail"

/-- `guac_rdp_rail_channel_connected` (rail.c lines 268-291): on a
channel-connected event, ignore any channel other than RAIL; for the RAIL
channel, set the `custom` back-reference and install the three callbacks,
then log.  Returns the updated channel-context slots and the emitted
client actions. -/
def guac_rdp_rail_channel_connected (context : rdp_freerdp_context)
    (name : String) (rail : RailClientContextSlots) :
    RailClientContextSlots × List ClientAction :=
  let client := context.client
  if name ≠ RAIL_SVC_CHANNEL_NAME then
    (rail, [])
  else
    let rail := { rail with
      custom := some client,
      ServerExecuteResult := some RailCallbackImpl.cb_guac_rdp_rail_execute_result,
      ServerHandshake := some RailCallbackImpl.cb_guac_rdp_rail_handshake,
      ServerHandshakeEx := some RailCallbackImpl.cb_guac_rdp_rail_handshake_ex }
    (rail, [ClientAction.log GuacLogLevel.GUAC_LOG_DEBUG
      "RAIL (RemoteApp) channel connected."])

/-- The step number (1-4) of a send event, `none` for lock events. -/
def RailEvent.stepOf : RailEvent → Option Nat
  | .sendHandshake _ => some 1
  | .sendClientStatus _ => some 2
  | .sendSysparam _ => some 3
  | .sendExecute _ => some 4
  | _ => none

/-- Whether an event is one of the four sends. -/
def RailEvent.isSend (e : RailEvent) : Bool :=
  e.stepOf.isSome

/-- The sequence of send steps (by step number, in trace order) performed
by one invocation of the sequencer. -/
def sendSteps (rail : RailSendOps) (rdp_client : guac_rdp_client) : List Nat :=
  (guac_rdp_rail_complete_handshake rail rdp_client).trace.filterMap
    RailEvent.stepOf

/-- The status that send step `k` (1-4) of the sequencer reports, as a
function of the oracle: each record sent is a fixed function of the session
context, so each step's status is determined independently of the others. -/
def railStepStatus (rail : RailSendOps) (rdp_client : guac_rdp_client) :
    Nat → UINT
  | 1 => rail.ClientHandshake guac_rdp_handshake_order
  | 2 => rail.ClientInformation guac_rdp_client_status_order
  | 3 => rail.ClientSystemParam (guac_rdp_sysparam_order rdp_client)
  | 4 => rail.ClientExecute (guac_rdp_exec_order rdp_client)
  | _ => CHANNEL_RC_OK

/-- The contribution of an event to the mutex hold depth: plus one for an
acquire, minus one for a release, zero for a send. -/
def RailEvent.lockDelta : RailEvent → Int
  | .lockAcquire => 1
  | .lockRelease => -1
  | _ => 0

/-- The mutex hold depth after a trace (acquires minus releases). -/
def lockDepth (t : List RailEvent) : Int :=
  (t.map RailEvent.lockDelta).sum

/-- The system-parameter records sent (in trace order) by one invocation of
the sequencer. -/
def sysparamsSent (rail : RailSendOps) (rdp_client : guac_rdp_client) :
    List RAIL_SYSPARAM_ORDER :=
  (guac_rdp_rail_complete_handshake rail rdp_client).trace.filterMap
    fun e => match e with
      | RailEvent.sendSysparam r => some r
      | _ => none

/-- The execute records sent (in trace order) by one invocation of the
sequencer. -/
def execsSent (rail : RailSendOps) (rdp_client : guac_rdp_client) :
    List RAIL_EXEC_ORDER :=
  (guac_rdp_rail_complete_handshake rail rdp_client).trace.filterMap
    fun e => match e with
      | RailEvent.sendExecute r => some r
      | _ => none

/-- Unfolding of the sequencer when the first send (ClientHandshake)
fails. -/
lemma complete_handshake_fail1 (rail : RailSendOps) (c : guac_rdp_client)
    (h1 : rail.ClientHandshake guac_rdp_handshake_order ≠ CHANNEL_RC_OK) :
    guac_rdp_rail_complete_handshake rail c =
      { trace := [RailEvent.lockAcquire,
          RailEvent.sendHandshake guac_rdp_handshake_order,
          RailEvent.lockRelease],
        status := rail.ClientHandshake guac_rdp_handshake_order,
        rdp_client := c } := by
  simp [guac_rdp_rail_complete_handshake, h1]

/-- Unfolding of the sequencer when the second send (ClientInformation)
fails after a successful first send. -/
lemma complete_handshake_fail2 (rail : RailSendOps) (c : guac_rdp_client)
    (h1 : rail.ClientHandshake guac_rdp_handshake_order = CHANNEL_RC_OK)
    (h2 : rail.ClientInformation guac_rdp_client_status_order ≠ CHANNEL_RC_OK) :
    guac_rdp_rail_complete_handshake rail c =
      { trace := [RailEvent.lockAcquire,
          RailEvent.sendHandshake guac_rdp_handshake_order,
          RailEvent.lockRelease,
          RailEvent.lockAcquire,
          RailEvent.sendClientStatus guac_rdp_client_status_order,
          RailEvent.lockRelease],
        status := rail.ClientInformation guac_rdp_client_status_order,
        rdp_client := c } := by
  simp [guac_rdp_rail_complete_handshake, h1, h2]

/-- Unfolding of the sequencer when the third send (ClientSystemParam)
fails after two successful sends. -/
lemma complete_handshake_fail3 (rail : RailSendOps) (c : guac_rdp_client)
    (h1 : rail.ClientHandshake guac_rdp_handshake_order = CHANNEL_RC_OK)
    (h2 : rail.ClientInformation guac_rdp_client_status_order = CHANNEL_RC_OK)
    (h3 : rail.ClientSystemParam (guac_rdp_sysparam_order c) ≠ CHANNEL_RC_OK) :
    guac_rdp_rail_complete_handshake rail c =
      { trace := [RailEvent.lockAcquire,
          RailEvent.sendHandshake guac_rdp_handshake_order,
          RailEvent.lockRelease,
          RailEvent.lockAcquire,
          RailEvent.sendClientStatus guac_rdp_client_status_order,
          RailEvent.lockRelease,
          RailEvent.lockAcquire,
          RailEvent.sendSysparam (guac_rdp_sysparam_order c),
          RailEvent.lockRelease],
        status := rail.ClientSystemParam (guac_rdp_sysparam_order c),
        rdp_client := c } := by
  simp [guac_rdp_rail_complete_handshake, h1, h2, h3]

/-- Unfolding of the sequencer when the first three sends succeed: all four
sends are performed and the returned status is the fourth send's. -/
lemma complete_handshake_ok123 (rail : RailSendOps) (c : guac_rdp_client)
    (h1 : rail.ClientHandshake guac_rdp_handshake_order = CHANNEL_RC_OK)
    (h2 : rail.ClientInformation guac_rdp_client_status_order = CHANNEL_RC_OK)
    (h3 : rail.ClientSystemParam (guac_rdp_sysparam_order c) = CHANNEL_RC_OK) :
    guac_rdp_rail_complete_handshake rail c =
      { trace := [RailEvent.lockAcquire,
          RailEvent.sendHandshake guac_rdp_handshake_order,
          RailEvent.lockRelease,
          RailEvent.lockAcquire,
          RailEvent.sendClientStatus guac_rdp_client_status_order,
          RailEvent.lockRelease,
          RailEvent.lockAcquire,
          RailEvent.sendSysparam (guac_rdp_sysparam_order c),
          RailEvent.lockRelease,
          RailEvent.lockAcquire,
          RailEvent.sendExecute (guac_rdp_exec_order c),
          RailEvent.lockRelease],
        status := rail.ClientExecute (guac_rdp_exec_order c),
        rdp_client := c } := by
  simp [guac_rdp_rail_complete_handshake, h1, h2, h3]

/-- C4: for every execute-result notification, a non-success result code
produces exactly one session-abort call with the fixed
`GUAC_PROTOCOL_STATUS_UPSTREAM_UNAVAILABLE` status, a success result code
produces no session-abort call, and in both cases the handler returns
`CHANNEL_RC_OK`. -/
theorem guac_rail_execute_result_abort_discipline (r : RAIL_EXEC_RESULT_ORDER) :
    ((guac_rdp_rail_execute_result r).1.filter ClientAction.isAbort =
      if r.execResult = RAIL_EXEC_S_OK then []
      else [ClientAction.abort
        GuacStatus.GUAC_PROTOCOL_STATUS_UPSTREAM_UNAVAILABLE
        "Failed to execute RAIL command."]) ∧
    (guac_rdp_rail_execute_result r).2 = CHANNEL_RC_OK := by
  by_cases h : r.execResult = RAIL_EXEC_S_OK <;>
    simp [guac_rdp_rail_execute_result, h, ClientAction.isAbort]

/-- C7: a channel-connected event whose name is not the well-known RAIL
channel name installs no callback and emits no action (the channel-context
slots are returned unchanged); the matching event installs exactly the
three callbacks, sets the `custom` back-reference to the owning client, and
logs. -/
theorem guac_rail_channel_connected_filter (context : rdp_freerdp_context)
    (name : String) (rail : RailClientContextSlots) :
    guac_rdp_rail_channel_connected context name rail =
      if name = RAIL_SVC_CHANNEL_NAME then
        ({ custom := some context.client,
           ServerExecuteResult :=
             some RailCallbackImpl.cb_guac_rdp_rail_execute_result,
           ServerHandshake := some RailCallbackImpl.cb_guac_rdp_rail_handshake,
           ServerHandshakeEx :=
             some RailCallbackImpl.cb_guac_rdp_rail_handshake_ex },
         [ClientAction.log GuacLogLevel.GUAC_LOG_DEBUG
           "RAIL (RemoteApp) channel connected."])
      else (rail, []) := by
  by_cases h : name = RAIL_SVC_CHANNEL_NAME <;>
    simp [guac_rdp_rail_channel_connected, h]

/-- C9: the plain-handshake callback and the extended-handshake callback
perform the same send sequence and return the same status: both equal the
underlying sequencer applied to the same channel context, for every oracle,
session context and payload. -/
theorem guac_rail_handshake_ex_same_as_handshake (rail : RailSendOps)
    (rdp_client : guac_rdp_client) (h : RAIL_HANDSHAKE_ORDER)
    (hex : RAIL_HANDSHAKE_EX_ORDER) :
    guac_rdp_rail_handshake rail rdp_client h =
      guac_rdp_rail_handshake_ex rail rdp_client hex ∧
    guac_rdp_rail_handshake rail rdp_client h =
      guac_rdp_rail_complete_handshake rail rdp_client :=
  ⟨rfl, rfl⟩

/-- C10: on every return path of the sequencer, the session-context state
(and in particular the configured width, height, remote program path,
working directory and argument string) is returned unchanged: the
sequencer only reads the configuration. -/
theorem guac_rail_complete_handshake_preserves_context (rail : RailSendOps)
    (c : guac_rdp_client) :
    (guac_rdp_rail_complete_handshake rail c).rdp_client = c := by
  by_cases h1 : rail.ClientHandshake guac_rdp_handshake_order = CHANNEL_RC_OK
  · by_cases h2 : rail.ClientInformation guac_rdp_client_status_order =
        CHANNEL_RC_OK
    · by_cases h3 : rail.ClientSystemParam (guac_rdp_sysparam_order c) =
          CHANNEL_RC_OK
      · rw [complete_handshake_ok123 rail c h1 h2 h3]
      · rw [complete_handshake_fail3 rail c h1 h2 h3]
    · rw [complete_handshake_fail2 rail c h1 h2]
  · rw [complete_handshake_fail1 rail c h1]

/-- C5: the system-parameter record is sent exactly when the first two
sends succeeded, and it carries `dragFullWindows = false`, the six
high-contrast flags, `keyboardCues = false`, `keyboardPref = false`,
`mouseButtonSwap = false`, the work-area rectangle
(0, 0, configured width, configured height), and the six-flag field mask. -/
theorem guac_rail_sysparam_record_contents (rail : RailSendOps)
    (c : guac_rdp_client) :
    (sysparamsSent rail c =
      if railStepStatus rail c 1 = CHANNEL_RC_OK ∧
          railStepStatus rail c 2 = CHANNEL_RC_OK
      then [guac_rdp_sysparam_order c] else []) ∧
    guac_rdp_sysparam_order c =
      { dragFullWindows := false,
        highContrast := {
          flags :=
            { HighContrastFlag.HCF_AVAILABLE,
              HighContrastFlag.HCF_CONFIRMHOTKEY,
              HighContrastFlag.HCF_HOTKEYACTIVE,
              HighContrastFlag.HCF_HOTKEYAVAILABLE,
              HighContrastFlag.HCF_HOTKEYSOUND,
              HighContrastFlag.HCF_INDICATOR },
          colorScheme := { string := none, length := 0 } },
        keyboardCues := false,
        keyboardPref := false,
        mouseButtonSwap := false,
        workArea := {
          left := 0,
          top := 0,
          right := c.settings.width,
          bottom := c.settings.height },
        params :=
          { SPIMaskFlag.SPI_MASK_SET_DRAG_FULL_WINDOWS,
            SPIMaskFlag.SPI_MASK_SET_HIGH_CONTRAST,
            SPIMaskFlag.SPI_MASK_SET_KEYBOARD_CUES,
            SPIMaskFlag.SPI_MASK_SET_KEYBOARD_PREF,
            SPIMaskFlag.SPI_MASK_SET_MOUSE_BUTTON_SWAP,
            SPIMaskFlag.SPI_MASK_SET_WORK_AREA } } := by
  refine ⟨?_, rfl⟩
  simp only [railStepStatus]
  by_cases h1 : rail.ClientHandshake guac_rdp_handshake_order = CHANNEL_RC_OK
  · by_cases h2 : rail.ClientInformation guac_rdp_client_status_order =
        CHANNEL_RC_OK
    · rw [if_pos ⟨h1, h2⟩]
      by_cases h3 : rail.ClientSystemParam (guac_rdp_sysparam_order c) =
          CHANNEL_RC_OK
      · simp only [sysparamsSent, complete_handshake_ok123 rail c h1 h2 h3]
        rfl
      · simp only [sysparamsSent, complete_handshake_fail3 rail c h1 h2 h3]
        rfl
    · rw [if_neg (fun hc => h2 hc.2)]
      simp only [sysparamsSent, complete_handshake_fail2 rail c h1 h2]
      rfl
  · rw [if_neg (fun hc => h1 hc.1)]
    simp only [sysparamsSent, complete_handshake_fail1 rail c h1]
    rfl

/-- C6: the execute record is sent exactly when the first three sends
succeeded, and it carries the configured remote program path, working
directory and argument string verbatim, with the flags field equal to
exactly the expand-arguments flag. -/
theorem guac_rail_exec_record_contents (rail : RailSendOps)
    (c : guac_rdp_client) :
    (execsSent rail c =
      if railStepStatus rail c 1 = CHANNEL_RC_OK ∧
          railStepStatus rail c 2 = CHANNEL_RC_OK ∧
          railStepStatus rail c 3 = CHANNEL_RC_OK
      then [guac_rdp_exec_order c] else []) ∧
    guac_rdp_exec_order c =
      { flags := { RailExecFlag.RAIL_EXEC_FLAG_EXPAND_ARGUMENTS },
        RemoteApplicationProgram := c.settings.remote_app,
        RemoteApplicationWorkingDir := c.settings.remote_app_dir,
        RemoteApplicationArguments := c.settings.remote_app_args } := by
  refine ⟨?_, rfl⟩
  simp only [railStepStatus]
  by_cases h1 : rail.ClientHandshake guac_rdp_handshake_order = CHANNEL_RC_OK
  · by_cases h2 : rail.ClientInformation guac_rdp_client_status_order =
        CHANNEL_RC_OK
    · by_cases h3 : rail.ClientSystemParam (guac_rdp_sysparam_order c) =
          CHANNEL_RC_OK
      · rw [if_pos ⟨h1, h2, h3⟩]
        simp only [execsSent, complete_handshake_ok123 rail c h1 h2 h3]
        rfl
      · rw [if_neg (fun hc => h3 hc.2.2)]
        simp only [execsSent, complete_handshake_fail3 rail c h1 h2 h3]
        rfl
    · rw [if_neg (fun hc => h2 hc.2.1)]
      simp only [execsSent, complete_handshake_fail2 rail c h1 h2]
      rfl
  · rw [if_neg (fun hc => h1 hc.1)]
    simp only [execsSent, complete_handshake_fail1 rail c h1]
    rfl

/-- C8: the trace of every sequencer invocation is exactly the
concatenation of one `[acquire, send, release]` block per send performed:
each send is individually wrapped by one acquire immediately before it and
one release immediately after it, the lock is never held across two sends,
and the hold depth at every return point is zero. -/
theorem guac_rail_lock_wraps_each_send (rail : RailSendOps)
    (c : guac_rdp_client) :
    ((guac_rdp_rail_complete_handshake rail c).trace =
      (((guac_rdp_rail_complete_handshake rail c).trace.filter
          RailEvent.isSend).map
        (fun e => [RailEvent.lockAcquire, e, RailEvent.lockRelease])).flatten) ∧
    lockDepth (guac_rdp_rail_complete_handshake rail c).trace = 0 := by
  by_cases h1 : rail.ClientHandshake guac_rdp_handshake_order = CHANNEL_RC_OK
  · by_cases h2 : rail.ClientInformation guac_rdp_client_status_order =
        CHANNEL_RC_OK
    · by_cases h3 : rail.ClientSystemParam (guac_rdp_sysparam_order c) =
          CHANNEL_RC_OK
      · rw [complete_handshake_ok123 rail c h1 h2 h3]
        exact ⟨rfl, rfl⟩
      · rw [complete_handshake_fail3 rail c h1 h2 h3]
        exact ⟨rfl, rfl⟩
    · rw [complete_handshake_fail2 rail c h1 h2]
      exact ⟨rfl, rfl⟩
  · rw [complete_handshake_fail1 rail c h1]
    exact ⟨rfl, rfl⟩

/-- C1: every invocation of the sequencer performs an initial segment of
the fixed step sequence 1,2,3,4 (handshake, client-status,
system-parameter, execute) in order, stopping early only when the last
step performed failed; it returns `CHANNEL_RC_OK` exactly when all four
sends were performed and each returned `CHANNEL_RC_OK`. -/
theorem guac_rail_send_order_and_success (rail : RailSendOps)
    (c : guac_rdp_client) :
    (∃ n, 1 ≤ n ∧ n ≤ 4 ∧ sendSteps rail c = List.range' 1 n ∧
      (∀ j, 1 ≤ j → j < n → railStepStatus rail c j = CHANNEL_RC_OK) ∧
      (n < 4 → railStepStatus rail c n ≠ CHANNEL_RC_OK)) ∧
    ((guac_rdp_rail_complete_handshake rail c).status = CHANNEL_RC_OK ↔
      sendSteps rail c = [1, 2, 3, 4] ∧
      ∀ j ∈ sendSteps rail c, railStepStatus rail c j = CHANNEL_RC_OK) := by
  by_cases h1 : rail.ClientHandshake guac_rdp_handshake_order = CHANNEL_RC_OK
  · by_cases h2 : rail.ClientInformation guac_rdp_client_status_order =
        CHANNEL_RC_OK
    · by_cases h3 : rail.ClientSystemParam (guac_rdp_sysparam_order c) =
          CHANNEL_RC_OK
      · have hT := complete_handshake_ok123 rail c h1 h2 h3
        have hs : sendSteps rail c = [1, 2, 3, 4] := by
          simp only [sendSteps, hT]; rfl
        refine ⟨⟨4, by omega, by omega, hs, ?_, by omega⟩, ?_⟩
        · intro j hj1 hj2
          interval_cases j
          · simpa [railStepStatus] using h1
          · simpa [railStepStatus] using h2
          · simpa [railStepStatus] using h3
        · rw [hT]
          constructor
          · intro h4
            refine ⟨hs, ?_⟩
            intro j hj
            rw [hs] at hj
            simp only [List.mem_cons, List.not_mem_nil, or_false] at hj
            rcases hj with hj | hj | hj | hj <;> subst hj
            · simpa [railStepStatus] using h1
            · simpa [railStepStatus] using h2
            · simpa [railStepStatus] using h3
            · simpa [railStepStatus] using h4
          · rintro ⟨-, hall⟩
            have h4 := hall 4 (by rw [hs]; simp)
            simpa [railStepStatus] using h4
      · have hT := complete_handshake_fail3 rail c h1 h2 h3
        have hs : sendSteps rail c = [1, 2, 3] := by
          simp only [sendSteps, hT]; rfl
        refine ⟨⟨3, by omega, by omega, hs, ?_, ?_⟩, ?_⟩
        · intro j hj1 hj2
          interval_cases j
          · simpa [railStepStatus] using h1
          · simpa [railStepStatus] using h2
        · intro _
          simpa [railStepStatus] using h3
        · constructor
          · intro hst
            rw [hT] at hst
            exact absurd hst h3
          · rintro ⟨hfull, -⟩
            rw [hs] at hfull
            exact absurd hfull (by decide)
    · have hT := complete_handshake_fail2 rail c h1 h2
      have hs : sendSteps rail c = [1, 2] := by
        simp only [sendSteps, hT]; rfl
      refine ⟨⟨2, by omega, by omega, hs, ?_, ?_⟩, ?_⟩
      · intro j hj1 hj2
        interval_cases j
        simpa [railStepStatus] using h1
      · intro _
        simpa [railStepStatus] using h2
      · constructor
        · intro hst
          rw [hT] at hst
          exact absurd hst h2
        · rintro ⟨hfull, -⟩
          rw [hs] at hfull
          exact absurd hfull (by decide)
  · have hT := complete_handshake_fail1 rail c h1
    have hs : sendSteps rail c = [1] := by
      simp only [sendSteps, hT]; rfl
    refine ⟨⟨1, by omega, by omega, hs, by omega, ?_⟩, ?_⟩
    · intro _
      simpa [railStepStatus] using h1
    · constructor
      · intro hst
        rw [hT] at hst
        exact absurd hst h1
      · rintro ⟨hfull, -⟩
        rw [hs] at hfull
        exact absurd hfull (by decide)

/-- C2: if send step `k` (1-4) is reached and reports a non-success
status, the sequencer performs exactly steps 1..k (so steps k+1..4 are
never invoked) and returns step `k`'s failure status. -/
theorem guac_rail_short_circuit_on_failure (rail : RailSendOps)
    (c : guac_rdp_client) (k : Nat) (hk1 : 1 ≤ k) (hk4 : k ≤ 4)
    (hprev : ∀ j, 1 ≤ j → j < k → railStepStatus rail c j = CHANNEL_RC_OK)
    (hfail : railStepStatus rail c k ≠ CHANNEL_RC_OK) :
    sendSteps rail c = List.range' 1 k ∧
    (guac_rdp_rail_complete_handshake rail c).status =
      railStepStatus rail c k := by
  interval_cases k
  · simp only [railStepStatus] at hfail
    have hT := complete_handshake_fail1 rail c hfail
    refine ⟨by simp only [sendSteps, hT]; rfl, ?_⟩
    rw [hT]
    simp [railStepStatus]
  · have h1 : rail.ClientHandshake guac_rdp_handshake_order = CHANNEL_RC_OK := by
      simpa [railStepStatus] using hprev 1 (by omega) (by omega)
    simp only [railStepStatus] at hfail
    have hT := complete_handshake_fail2 rail c h1 hfail
    refine ⟨by simp only [sendSteps, hT]; rfl, ?_⟩
    rw [hT]
    simp [railStepStatus]
  · have h1 : rail.ClientHandshake guac_rdp_handshake_order = CHANNEL_RC_OK := by
      simpa [railStepStatus] using hprev 1 (by omega) (by omega)
    have h2 : rail.ClientInformation guac_rdp_client_status_order =
        CHANNEL_RC_OK := by
      simpa [railStepStatus] using hprev 2 (by omega) (by omega)
    simp only [railStepStatus] at hfail
    have hT := complete_handshake_fail3 rail c h1 h2 hfail
    refine ⟨by simp only [sendSteps, hT]; rfl, ?_⟩
    rw [hT]
    simp [railStepStatus]
  · have h1 : rail.ClientHandshake guac_rdp_handshake_order = CHANNEL_RC_OK := by
      simpa [railStepStatus] using hprev 1 (by omega) (by omega)
    have h2 : rail.ClientInformation guac_rdp_client_status_order =
        CHANNEL_RC_OK := by
      simpa [railStepStatus] using hprev 2 (by omega) (by omega)
    have h3 : rail.ClientSystemParam (guac_rdp_sysparam_order c) =
        CHANNEL_RC_OK := by
      simpa [railStepStatus] using hprev 3 (by omega) (by omega)
    have hT := complete_handshake_ok123 rail c h1 h2 h3
    refine ⟨by simp only [sendSteps, hT]; rfl, ?_⟩
    rw [hT]
    simp [railStepStatus]

/-- C3: on every path on which the execute record is sent (step 4 appears
in the send trace), the earlier handshake send returned success — and in
fact all of steps 1-3 succeeded and the sends happened in the order
1, 2, 3, 4, so the handshake send precedes the execute send. -/
theorem guac_rail_execute_requires_handshake_success (rail : RailSendOps)
    (c : guac_rdp_client) (h : (4 : Nat) ∈ sendSteps rail c) :
    railStepStatus rail c 1 = CHANNEL_RC_OK ∧
    railStepStatus rail c 2 = CHANNEL_RC_OK ∧
    railStepStatus rail c 3 = CHANNEL_RC_OK ∧
    sendSteps rail c = [1, 2, 3, 4] := by
  by_cases h1 : rail.ClientHandshake guac_rdp_handshake_order = CHANNEL_RC_OK
  · by_cases h2 : rail.ClientInformation guac_rdp_client_status_order =
        CHANNEL_RC_OK
    · by_cases h3 : rail.ClientSystemParam (guac_rdp_sysparam_order c) =
          CHANNEL_RC_OK
      · have hs : sendSteps rail c = [1, 2, 3, 4] := by
          simp only [sendSteps, complete_handshake_ok123 rail c h1 h2 h3]; rfl
        exact ⟨by simpa [railStepStatus] using h1,
          by simpa [railStepStatus] using h2,
          by simpa [railStepStatus] using h3, hs⟩
      · have hs : sendSteps rail c = [1, 2, 3] := by
          simp only [sendSteps, complete_handshake_fail3 rail c h1 h2 h3]; rfl
        rw [hs] at h
        exact absurd h (by decide)
    · have hs : sendSteps rail c = [1, 2] := by
        simp only [sendSteps, complete_handshake_fail2 rail c h1 h2]; rfl
      rw [hs] at h
      exact absurd h (by decide)
  · have hs : sendSteps rail c = [1] := by
      simp only [sendSteps, complete_handshake_fail1 rail c h1]; rfl
    rw [hs] at h
    exact absurd h (by decide)

/-- A concrete transport oracle whose four sends all succeed. -/
def railOpsAllOk : RailSendOps :=
  { ClientHandshake := fun _ => CHANNEL_RC_OK,
    ClientInformation := fun _ => CHANNEL_RC_OK,
    ClientSystemParam := fun _ => CHANNEL_RC_OK,
    ClientExecute := fun _ => CHANNEL_RC_OK }

/-- A concrete transport oracle whose third send (ClientSystemParam) fails
with status 7 while the others succeed. -/
def railOpsFail3 : RailSendOps :=
  { ClientHandshake := fun _ => CHANNEL_RC_OK,
    ClientInformation := fun _ => CHANNEL_RC_OK,
    ClientSystemParam := fun _ => 7,
    ClientExecute := fun _ => CHANNEL_RC_OK }

/-- A concrete session context used to instantiate the theorems. -/
def railDemoClient : guac_rdp_client :=
  { settings := {
      width := 1024,
      height := 768,
      remote_app := "||notepad",
      remote_app_dir := "C:\\Users\\demo",
      remote_app_args := "--readonly" } }

/-- Witness for C2: with the oracle whose third send fails with status 7,
the sequencer performs exactly steps 1, 2, 3 and returns status 7. -/
theorem guac_rail_short_circuit_on_failure_witness :
    sendSteps railOpsFail3 railDemoClient = List.range' 1 3 ∧
    (guac_rdp_rail_complete_handshake railOpsFail3 railDemoClient).status =
      railStepStatus railOpsFail3 railDemoClient 3 :=
  guac_rail_short_circuit_on_failure railOpsFail3 railDemoClient 3
    (by decide) (by decide)
    (fun j hj1 hj2 => by interval_cases j <;> rfl)
    (by decide)

/-- Witness for C3: with the all-success oracle, step 4 is sent, the first
three steps all returned success, and the send order is 1, 2, 3, 4. -/
theorem guac_rail_execute_requires_handshake_success_witness :
    railStepStatus railOpsAllOk railDemoClient 1 = CHANNEL_RC_OK ∧
    railStepStatus railOpsAllOk railDemoClient 2 = CHANNEL_RC_OK ∧
    railStepStatus railOpsAllOk railDemoClient 3 = CHANNEL_RC_OK ∧
    sendSteps railOpsAllOk railDemoClient = [1, 2, 3, 4] :=
  guac_rail_execute_requires_handshake_success railOpsAllOk railDemoClient
    (by decide)
